import Mathlib

/-!
Shallow embedding of `src/complete-deployer.js`, a Node.js script that
scaffolds a Hardhat token project, shells out to the toolchain, and can
alternatively submit a raw deployment transaction ("quick mode").

The script's effects are modelled as an explicit trace of events
(directory creation, `chdir`, file writes, subprocess execution, network
calls, console output), and the outside world (which directories already
exist, which subprocesses succeed, what the RPC endpoint returns) is an
explicit parameter.  Machine behaviour of the JavaScript runtime that the
script relies on (the `||` default operator, `process.exit`, promise
rejection reaching `main().catch(console.error)`) is translated directly.
-/

namespace AirDeploy

/-- The observable effects of the script: file-system mutations, subprocess
execution, network traffic, and console output. `deployTx` is the
submission of a contract-creation transaction carrying the bytecode blob. -/
inductive Event where
  | mkdir (path : String)
  | chdir (path : String)
  | writeFile (path : String) (contents : String)
  | exec (cmd : String)
  | net (op : String)
  | deployTx (code : String)
  | log (msg : String)
  | logError (msg : String)
deriving DecidableEq, Repr

/-- How a modelled procedure ends: normally, by throwing a JS error with a
message, or by calling `process.exit` with a code. -/
inductive StepResult where
  | ok
  | err (msg : String)
  | exit (code : Nat)
deriving DecidableEq, Repr

/-- Result of running a piece of the script: the trace of events it emitted
and how it ended. -/
abbrev Proc := List Event × StepResult

/-- Sequencing of two procedures: the second runs only when the first ends
normally; a thrown error or a `process.exit` propagates, keeping the trace
emitted so far (JS sequential `await` semantics). -/
def pseq (r s : Proc) : Proc :=
  match r with
  | (es, StepResult.ok) => (es ++ s.1, s.2)
  | (es, st) => (es, st)

/-- Process environment and command line: `process.env.PRIVATE_KEY`,
`process.env.RPC_URL` (absent = `none`), and `process.argv.slice(2)`. -/
structure Env where
  privateKeyVar : Option String
  rpcUrlVar : Option String
  args : List String

/-- The JavaScript `a || d` default idiom on environment variables: an
absent or empty-string variable falls back to the default. -/
def jsOr (v : Option String) (d : String) : String :=
  match v with
  | some s => if s = "" then d else s
  | none => d

/-- Truthiness of an environment variable in JS (`!process.env.X` is true
exactly when the variable is absent or the empty string). -/
def truthy (v : Option String) : Bool :=
  match v with
  | some s => s ≠ ""
  | none => false

/-- The external world the script runs against: which paths already exist
before the run, which subprocess invocations succeed, whether wallet
construction and each RPC operation of quick mode succeed, and the strings
the SDK returns (addresses, balance, transaction hash). -/
structure World where
  exProject : Bool
  exContracts : Bool
  exScripts : Bool
  exArtifacts : Bool
  exCache : Bool
  okNpmInstall : Bool
  okCompile : Bool
  okDeployRun : Bool
  okMonitor : Bool
  walletOk : Bool
  okGetBalance : Bool
  okDeploy : Bool
  okWait : Bool
  walletAddress : String
  balanceStr : String
  contractAddress : String
  txHash : String

/-- Fallback placeholder for the signing credential (source line 10). -/
def placeholderKey : String := "YOUR_PRIVATE_KEY_HERE"

/-- Default RPC endpoint (source line 11). -/
def defaultRpcUrl : String := "https://sepolia.base.org"

/-- Constructor field `this.privateKey = process.env.PRIVATE_KEY || placeholder`. -/
def Env.privateKey (env : Env) : String := jsOr env.privateKeyVar placeholderKey

/-- Constructor field `this.rpcUrl = process.env.RPC_URL || default`. -/
def Env.rpcUrl (env : Env) : String := jsOr env.rpcUrlVar defaultRpcUrl

/-- Fixed project name (source line 9). -/
def projectName : String := "air-token-project"

/-- Raw `fs.mkdirSync`: throws `EEXIST` when the path already exists,
otherwise creates the directory. -/
def mkdirSync (ex : Bool) (path : String) : Proc :=
  if ex then ([], StepResult.err ("EEXIST: " ++ path)) else ([Event.mkdir path], StepResult.ok)

/-- The guarded pattern of the source: `if (!fs.existsSync(p)) fs.mkdirSync(p)`. -/
def mkdirIfMissing (ex : Bool) (path : String) : Proc :=
  if ex then ([], StepResult.ok) else mkdirSync ex path

/-- `fs.writeFileSync(path, contents)` (modelled as always succeeding). -/
def writeFileSync (path contents : String) : Proc :=
  ([Event.writeFile path contents], StepResult.ok)

/-- `this.runCommand(cmd)`: runs `execSync(cmd)` and wraps a non-zero exit
into a thrown error with the message of source line 234; `ok` is the
world's verdict on the subprocess. -/
def runCommand (ok : Bool) (cmd : String) : Proc :=
  ([Event.exec cmd], if ok then StepResult.ok else StepResult.err ("Command failed: " ++ cmd))

/-- Contents written to `package.json`: the exact output of
`JSON.stringify(packageJson, null, 2)` for the object of source lines 59-73. -/
def packageJsonStr : String :=
  "\x7b\n  \"name\": \"air-token-project\",\n  \"version\": \"1.0.0\",\n  \"scripts\": \x7b\n    \"compile\": \"npx hardhat compile\",\n    \"deploy\": \"npx hardhat run scripts/deploy.js --network baseSepolia\",\n    \"test\": \"npx hardhat test\"\n  \x7d,\n  \"devDependencies\": \x7b\n    \"@nomiclabs/hardhat-ethers\": \"^2.2.3\",\n    \"@openzeppelin/contracts\": \"^4.9.3\",\n    \"ethers\": \"^6.10.0\",\n    \"hardhat\": \"^2.20.2\"\n  \x7d\n\x7d"

/-- Template for `hardhat.config.js` (source lines 85-98); the only
interpolated value is `this.rpcUrl`. -/
def hardhatConfigStr (url : String) : String :=
  "\nrequire(\"@nomiclabs/hardhat-ethers\");\n\nmodule.exports = \x7b\n  solidity: \"0.8.20\",\n  networks: \x7b\n    baseSepolia: \x7b\n      url: \"" ++ url ++ "\",\n      chainId: 84532,\n      accounts: process.env.PRIVATE_KEY ? [process.env.PRIVATE_KEY] : []\n    \x7d\n  \x7d\n\x7d;\n"

/-- Template for `contracts/AIR.sol` (source lines 102-118), a fixed string. -/
def airSolStr : String :=
  "\n// SPDX-License-Identifier: MIT\npragma solidity ^0.8.20;\n\nimport \"@openzeppelin/contracts/token/ERC20/ERC20.sol\";\nimport \"@openzeppelin/contracts/access/Ownable.sol\";\n\ncontract AIR is ERC20, Ownable \x7b\n    constructor() ERC20(\"AIR Token\", \"AIR\") Ownable(msg.sender) \x7b\n        _mint(msg.sender, 1000000 * 10**decimals()); // 1 million tokens\n    \x7d\n    \n    function mint(address to, uint256 amount) public onlyOwner \x7b\n        _mint(to, amount);\n    \x7d\n\x7d\n"

/-- Template for `scripts/deploy.js` (source lines 122-162), a fixed string
with no interpolation. -/
def deployJsStr : String :=
  "\nconst \x7b ethers \x7d = require(\"hardhat\");\n\nasync function main() \x7b\n  console.log(\"🚀 Starting AIR token deployment...\");\n  \n  const [deployer] = await ethers.getSigners();\n  console.log(\"Deployer:\", deployer.address);\n  \n  const balance = await ethers.provider.getBalance(deployer.address);\n  console.log(\"Balance:\", ethers.formatEther(balance), \"ETH\");\n  \n  // Deploy contract\n  const AIR = await ethers.getContractFactory(\"AIR\");\n  const air = await AIR.deploy();\n  \n  await air.waitForDeployment();\n  const address = await air.getAddress();\n  \n  console.log(\"✅ AIR Token deployed to:\", address);\n  console.log(\"Name:\", await air.name());\n  console.log(\"Symbol:\", await air.symbol());\n  console.log(\"Total Supply:\", ethers.formatEther(await air.totalSupply()));\n  \n  // Save deployment info\n  const deploymentInfo = \x7b\n    address: address,\n    deployer: deployer.address,\n    network: \"base-sepolia\",\n    timestamp: new Date().toISOString()\n  \x7d;\n  \n  require(\"fs\").writeFileSync(\"deployment-info.json\", JSON.stringify(deploymentInfo, null, 2));\n  console.log(\"📄 Deployment info saved to deployment-info.json\");\n\x7d\n\nmain().catch((error) => \x7b\n  console.error(error);\n  process.exit(1);\n\x7d);\n"

/-- Template for `.env.example` (source lines 166-167); interpolates the
RPC URL, and holds only the literal key placeholder. -/
def envExampleStr (url : String) : String :=
  "PRIVATE_KEY=your_private_key_here\nRPC_URL=" ++ url

/-- Template for `.gitignore` (source lines 171-175), a fixed string. -/
def gitignoreStr : String :=
  "node_modules/\n.env\ndeployment-info.json\nartifacts/\ncache/"

/-- Template for `monitor.js` (source lines 198-223); the only interpolated
value is `this.rpcUrl`. -/
def monitorJsStr (url : String) : String :=
  "\nconst \x7b ethers \x7d = require(\"ethers\");\n\nasync function monitor() \x7b\n    const provider = new ethers.JsonRpcProvider(\"" ++ url ++ "\");\n    \n    try \x7b\n        const deploymentInfo = require(\"./deployment-info.json\");\n        const contract = new ethers.Contract(\n            deploymentInfo.address,\n            [\"function name() view returns (string)\"],\n            provider\n        );\n        \n        console.log(\"👀 Monitoring AIR token...\");\n        console.log(\"Contract:\", deploymentInfo.address);\n        console.log(\"Name:\", await contract.name());\n        console.log(\"BaseScan: https://sepolia.basescan.org/address/\" + deploymentInfo.address);\n        \n    \x7d catch (error) \x7b\n        console.log(\"Monitoring error:\", error.message);\n    \x7d\n\x7d\n\nmonitor();\n"

/-- Hard-coded contract-creation bytecode blob of quick mode
(source lines 257-258). -/
def quickBytecode : String :=
  "0x608060405234801561001057600080fd5b5060405161051438038061051483398101604081905261002f916100df565b8282816003908161004091906102f7565b50600480546001600160a01b0319163317905561005c8382610064565b505050506103be565b600280546001600160a01b0319166001600160a01b0384161790556040516000906100909083906100c3565b604051809103906000f0801580156100ac573d6000803e3d6000fd5b509050806001600160a01b03163"

namespace CompleteDeployer

/-- `createProjectStructure` (source lines 40-53): guarded `mkdir` of the
project directory, `chdir` into it, then guarded `mkdir` of the four
subdirectories. -/
def createProjectStructure (w : World) : Proc :=
  pseq ([Event.log ("📁 Creating project structure...")], StepResult.ok)
    (pseq (mkdirIfMissing w.exProject projectName)
      (pseq ([Event.chdir projectName], StepResult.ok)
        (pseq (mkdirIfMissing w.exContracts ("contracts"))
          (pseq (mkdirIfMissing w.exScripts ("scripts"))
            (pseq (mkdirIfMissing w.exArtifacts ("artifacts"))
              (mkdirIfMissing w.exCache ("cache")))))))

/-- `installDependencies` (source lines 55-79): write `package.json`, then
run `npm install`. -/
def installDependencies (w : World) : Proc :=
  pseq ([Event.log ("📦 Installing dependencies...")], StepResult.ok)
    (pseq (writeFileSync ("package.json") packageJsonStr)
      (runCommand w.okNpmInstall ("npm install")))

/-- `createConfigFiles` (source lines 81-177): write the five template
files; no subprocess runs here. -/
def createConfigFiles (env : Env) : Proc :=
  pseq ([Event.log ("⚙️  Creating configuration files...")], StepResult.ok)
    (pseq (writeFileSync ("hardhat.config.js") (hardhatConfigStr env.rpcUrl))
      (pseq (writeFileSync ("contracts/AIR.sol") airSolStr)
        (pseq (writeFileSync ("scripts/deploy.js") deployJsStr)
          (pseq (writeFileSync (".env.example") (envExampleStr env.rpcUrl))
            (writeFileSync (".gitignore") gitignoreStr)))))

/-- `deployContract` (source lines 179-192): throw when the credential is
absent (`!process.env.PRIVATE_KEY && this.privateKey === placeholder`),
otherwise compile and run the deployment through Hardhat. -/
def deployContract (env : Env) (w : World) : Proc :=
  pseq ([Event.log ("📤 Deploying AIR token...")], StepResult.ok)
    (if truthy env.privateKeyVar = false ∧ env.privateKey = placeholderKey then
      ([], StepResult.err ("Please set PRIVATE_KEY environment variable or update the script"))
    else
      pseq (runCommand w.okCompile ("npx hardhat compile"))
        (runCommand w.okDeployRun ("npx hardhat run scripts/deploy.js --network baseSepolia")))

/-- `startMonitoring` (source lines 194-228): write `monitor.js`, then run
it as a subprocess. -/
def startMonitoring (env : Env) (w : World) : Proc :=
  pseq ([Event.log ("📊 Starting deployment monitoring...")], StepResult.ok)
    (pseq (writeFileSync ("monitor.js") (monitorJsStr env.rpcUrl))
      (runCommand w.okMonitor ("node monitor.js")))

/-- `run` (source lines 14-38): the five steps in order inside a
`try`; a thrown error is caught, logged with the `❌ Deployment failed:`
prefix, and turned into `process.exit(1)`; on success the completion
banner is printed. -/
def run (env : Env) (w : World) : Proc :=
  match pseq (createProjectStructure w)
      (pseq (installDependencies w)
        (pseq (createConfigFiles env)
          (pseq (deployContract env w) (startMonitoring env w)))) with
  | (es, StepResult.ok) =>
      ([Event.log ("🚀 STARTING COMPLETE AIR TOKEN DEPLOYMENT SYSTEM\n")] ++ es ++
        [Event.log ("\n🎉 DEPLOYMENT COMPLETE! Your AIR token is live on Base Sepolia.")],
       StepResult.ok)
  | (es, StepResult.err m) =>
      ([Event.log ("🚀 STARTING COMPLETE AIR TOKEN DEPLOYMENT SYSTEM\n")] ++ es ++
        [Event.logError ("❌ Deployment failed: " ++ m)],
       StepResult.exit 1)
  | (es, StepResult.exit c) =>
      ([Event.log ("🚀 STARTING COMPLETE AIR TOKEN DEPLOYMENT SYSTEM\n")] ++ es,
       StepResult.exit c)

end CompleteDeployer

/-- `quickDeploy` (source lines 240-275): provider construction (no network
traffic), the placeholder check with `process.exit(1)`, wallet
construction, a balance query, the contract-creation submission with the
hard-coded bytecode, the confirmation wait, and the success printout. -/
def quickDeploy (env : Env) (w : World) : Proc :=
  pseq ([Event.log ("⚡ QUICK DEPLOYMENT MODE (Direct Ethers.js)")], StepResult.ok)
    (if jsOr env.privateKeyVar placeholderKey = placeholderKey then
      ([Event.log ("❌ Please set PRIVATE_KEY environment variable")], StepResult.exit 1)
    else
      pseq (([], if w.walletOk then StepResult.ok else StepResult.err ("invalid private key")))
        (pseq ([Event.log ("Deployer: " ++ w.walletAddress)], StepResult.ok)
          (pseq (([Event.net ("getBalance")],
                  if w.okGetBalance then StepResult.ok else StepResult.err ("getBalance failed")))
            (pseq ([Event.log ("Balance: " ++ w.balanceStr ++ " ETH")], StepResult.ok)
              (pseq ([Event.log ("🚀 Deploying...")], StepResult.ok)
                (pseq (([Event.deployTx quickBytecode],
                        if w.okDeploy then StepResult.ok else StepResult.err ("deploy failed")))
                  (pseq (([Event.net ("waitForDeployment")],
                          if w.okWait then StepResult.ok else StepResult.err ("waitForDeployment failed")))
                    ([Event.log ("✅ Contract deployed to: " ++ w.contractAddress),
                      Event.log ("Transaction hash: " ++ w.txHash)], StepResult.ok))))))))

/-- Character for a decimal digit (the fixed-width zero-padded fields of
the ECMAScript date-time string format). -/
def digitChar (n : Nat) : Char := Char.ofNat (48 + n % 10)

/-- Two-digit zero-padded decimal field. -/
def pad2 (n : Nat) : String := String.mk [digitChar (n / 10), digitChar n]

/-- Three-digit zero-padded decimal field (milliseconds). -/
def pad3 (n : Nat) : String := String.mk [digitChar (n / 100), digitChar (n / 10), digitChar n]

/-- Four-digit zero-padded decimal field (year). -/
def pad4 (n : Nat) : String :=
  String.mk [digitChar (n / 1000), digitChar (n / 100), digitChar (n / 10), digitChar n]

/-- Gregorian year for a count of days since 1970-01-01 (era-based civil
calendar arithmetic). -/
def civilYear (days : Nat) : Nat :=
  let z := days + 719468
  let era := z / 146097
  let doe := z % 146097
  let yoe := (doe - doe / 1460 + doe / 36524 - doe / 146096) / 365
  let y := yoe + era * 400
  let doy := doe - (365 * yoe + yoe / 4 - yoe / 100)
  let mp := (5 * doy + 2) / 153
  let m := if mp < 10 then mp + 3 else mp - 9
  if m ≤ 2 then y + 1 else y

/-- Gregorian month (1-12) for a count of days since 1970-01-01. -/
def civilMonth (days : Nat) : Nat :=
  let z := days + 719468
  let doe := z % 146097
  let yoe := (doe - doe / 1460 + doe / 36524 - doe / 146096) / 365
  let doy := doe - (365 * yoe + yoe / 4 - yoe / 100)
  let mp := (5 * doy + 2) / 153
  if mp < 10 then mp + 3 else mp - 9

/-- Gregorian day of month (1-31) for a count of days since 1970-01-01. -/
def civilDay (days : Nat) : Nat :=
  let z := days + 719468
  let doe := z % 146097
  let yoe := (doe - doe / 1460 + doe / 36524 - doe / 146096) / 365
  let doy := doe - (365 * yoe + yoe / 4 - yoe / 100)
  let mp := (5 * doy + 2) / 153
  doy - (153 * mp + 2) / 5 + 1

/-- Modelled from the spec: `new Date().toISOString()` of the JavaScript
runtime, which the generated `scripts/deploy.js` calls to stamp the
deployment record ("a timestamp parseable as a standard date-time").
Follows the ECMAScript date-time string format
`YYYY-MM-DDTHH:mm:ss.sssZ` for a UTC time given as milliseconds since the
epoch (years 1970-9999). -/
def toISOString (t : Nat) : String :=
  let days := t / 86400000
  let ms := t % 86400000
  pad4 (civilYear days) ++ "-" ++ pad2 (civilMonth days) ++ "-" ++ pad2 (civilDay days) ++
    "T" ++ pad2 (ms / 3600000) ++ ":" ++ pad2 (ms % 3600000 / 60000) ++ ":" ++
    pad2 (ms % 60000 / 1000) ++ "." ++ pad3 (ms % 1000) ++ "Z"

/-- Recogniser for the ISO 8601 extended date-time shape
`YYYY-MM-DDTHH:mm:ss.sssZ`: 24 characters, digits in the numeric fields
and the literal separators in place. -/
def isISO8601 (s : String) : Bool :=
  match s.data with
  | [y1, y2, y3, y4, '-', m1, m2, '-', d1, d2, 'T',
     h1, h2, ':', n1, n2, ':', s1, s2, '.', f1, f2, f3, 'Z'] =>
      y1.isDigit && y2.isDigit && y3.isDigit && y4.isDigit &&
      m1.isDigit && m2.isDigit && d1.isDigit && d2.isDigit &&
      h1.isDigit && h2.isDigit && n1.isDigit && n2.isDigit &&
      s1.isDigit && s2.isDigit && f1.isDigit && f2.isDigit && f3.isDigit
  | _ => false

/-- Hexadecimal digit (either case). -/
def isHexDigitChar (c : Char) : Bool :=
  c.isDigit || ('a' ≤ c && c ≤ 'f') || ('A' ≤ c && c ≤ 'F')

/-- Syntactically valid Ethereum address: `0x` followed by exactly 40
hexadecimal digits. -/
def isHexAddress (s : String) : Bool :=
  match s.data with
  | '0' :: 'x' :: rest => rest.length == 40 && rest.all isHexDigitChar
  | _ => false

/-- The deployment-result record serialized by the generated
`scripts/deploy.js` into `deployment-info.json` (template lines 147-152
of the source). -/
structure DeploymentInfo where
  address : String
  deployer : String
  network : String
  timestamp : String
deriving DecidableEq, Repr

/-- Exact output of `JSON.stringify(deploymentInfo, null, 2)` for the
record object of the deploy-script template. -/
def serializeDeploymentInfo (i : DeploymentInfo) : String :=
  "\x7b\n  \"address\": \"" ++ i.address ++ "\",\n  \"deployer\": \"" ++ i.deployer ++
    "\",\n  \"network\": \"" ++ i.network ++ "\",\n  \"timestamp\": \"" ++ i.timestamp ++ "\"\n\x7d"

/-- Semantics of the generated `scripts/deploy.js` (template at source
lines 122-162): signer lookup, balance query, deploy, confirmation wait,
three token reads, then the write of `deployment-info.json`; its own
`main().catch` logs a failure and calls `process.exit(1)`.  The `ok*`
booleans are the world's verdicts on each awaited SDK operation, the
strings are what the SDK returns, and `nowMs` is the clock reading at
`new Date()`. -/
def pseqAll (ps : List Proc) : Proc := ps.foldr pseq ([], StepResult.ok)

/-- Body of the generated `scripts/deploy.js`, the statements of its
`main` in order. -/
def deployScriptBody (okSigners okBalance okDeploy okWait okName okSymbol okSupply : Bool)
    (deployerAddr addr nameV symV supV balV : String) (nowMs : Nat) : Proc :=
  pseqAll
    [([Event.log ("🚀 Starting AIR token deployment...")], StepResult.ok),
     ([], if okSigners then StepResult.ok else StepResult.err ("no signer configured")),
     ([Event.log ("Deployer: " ++ deployerAddr)], StepResult.ok),
     ([Event.net ("getBalance")],
      if okBalance then StepResult.ok else StepResult.err ("getBalance failed")),
     ([Event.log ("Balance: " ++ balV ++ " ETH")], StepResult.ok),
     ([Event.net ("deploy")],
      if okDeploy then StepResult.ok else StepResult.err ("deploy failed")),
     ([Event.net ("waitForDeployment")],
      if okWait then StepResult.ok else StepResult.err ("waitForDeployment failed")),
     ([Event.log ("✅ AIR Token deployed to: " ++ addr)], StepResult.ok),
     ([Event.net ("name")],
      if okName then StepResult.ok else StepResult.err ("name failed")),
     ([Event.log ("Name: " ++ nameV)], StepResult.ok),
     ([Event.net ("symbol")],
      if okSymbol then StepResult.ok else StepResult.err ("symbol failed")),
     ([Event.log ("Symbol: " ++ symV)], StepResult.ok),
     ([Event.net ("totalSupply")],
      if okSupply then StepResult.ok else StepResult.err ("totalSupply failed")),
     ([Event.log ("Total Supply: " ++ supV)], StepResult.ok),
     (writeFileSync ("deployment-info.json")
        (serializeDeploymentInfo ⟨addr, deployerAddr, "base-sepolia", toISOString nowMs⟩)),
     ([Event.log ("📄 Deployment info saved to deployment-info.json")], StepResult.ok)]

/-- The generated `scripts/deploy.js` as a whole: its `main().catch` logs
a failure and calls `process.exit(1)`. -/
def deployScriptRun (okSigners okBalance okDeploy okWait okName okSymbol okSupply : Bool)
    (deployerAddr addr nameV symV supV balV : String) (nowMs : Nat) : Proc :=
  match deployScriptBody okSigners okBalance okDeploy okWait okName okSymbol okSupply
      deployerAddr addr nameV symV supV balV nowMs with
  | (es, StepResult.ok) => (es, StepResult.ok)
  | (es, StepResult.err m) => (es ++ [Event.logError m], StepResult.exit 1)
  | (es, StepResult.exit c) => (es, StepResult.exit c)

/-- Semantics of the generated `monitor.js` (template at source lines
198-223): provider construction, then inside a `try`: the
`deployment-info.json` lookup and the one-shot `name()` read; any failure
is caught locally and logged with the `Monitoring error:` prefix, and the
script always finishes normally (exit code 0). -/
def monitorScriptRun (okInfo : Bool) (infoAddr : String) (okName : Bool)
    (nameV eInfo eName : String) : Proc :=
  if okInfo then
    (if okName then
      ([Event.log ("👀 Monitoring AIR token..."),
        Event.log ("Contract: " ++ infoAddr),
        Event.net ("name"),
        Event.log ("Name: " ++ nameV),
        Event.log ("BaseScan: https://sepolia.basescan.org/address/" ++ infoAddr)],
       StepResult.ok)
    else
      ([Event.log ("👀 Monitoring AIR token..."),
        Event.log ("Contract: " ++ infoAddr),
        Event.net ("name"),
        Event.log ("Monitoring error: " ++ eName)],
       StepResult.ok))
  else
    ([Event.log ("Monitoring error: " ++ eInfo)], StepResult.ok)

/-- `main` (source lines 278-287): dispatch on the `--quick` flag. -/
def mainFn (env : Env) (w : World) : Proc :=
  if env.args.contains ("--quick") then quickDeploy env w
  else CompleteDeployer.run env w

/-- The whole process, `main().catch(console.error)` (source line 291): a
rejection escaping `main` is logged by the top-level handler, after which
the process exits 0; an explicit `process.exit(c)` yields code `c`;
normal completion yields code 0.  Returns the trace and the process exit
code. -/
def program (env : Env) (w : World) : List Event × Nat :=
  match mainFn env w with
  | (es, StepResult.ok) => (es, 0)
  | (es, StepResult.exit c) => (es, c)
  | (es, StepResult.err m) => (es ++ [Event.logError m], 0)

/-- Success condition of scaffold-and-deploy mode: the credential is set
and all four subprocess invocations succeed. -/
def scaffoldOk (env : Env) (w : World) : Bool :=
  truthy env.privateKeyVar && w.okNpmInstall && w.okCompile && w.okDeployRun && w.okMonitor

/-- Failure of some awaited quick-mode operation past the credential
check: wallet construction, balance query, submission, or confirmation. -/
def quickFailed (w : World) : Bool :=
  !(w.walletOk && w.okGetBalance && w.okDeploy && w.okWait)

/-- File writes of a trace, in order, as `(path, contents)` pairs. -/
def writesOf (es : List Event) : List (String × String) :=
  es.filterMap (fun e =>
    match e with
    | Event.writeFile p c => some (p, c)
    | _ => none)

/-- Trace of `createProjectStructure` in closed form. -/
def cpsTrace (w : World) : List Event :=
  Event.log ("📁 Creating project structure...") ::
    ((if w.exProject then [] else [Event.mkdir projectName]) ++
      (Event.chdir projectName ::
        ((if w.exContracts then [] else [Event.mkdir ("contracts")]) ++
         (if w.exScripts then [] else [Event.mkdir ("scripts")]) ++
         (if w.exArtifacts then [] else [Event.mkdir ("artifacts")]) ++
         (if w.exCache then [] else [Event.mkdir ("cache")]))))

/-- Combined trace of the file-generating steps of scaffold mode (steps 2,
3 and the file write of step 5). -/
def scaffoldGenTrace (env : Env) (w : World) : List Event :=
  (CompleteDeployer.installDependencies w).1 ++ (CompleteDeployer.createConfigFiles env).1 ++
    (CompleteDeployer.startMonitoring env w).1

/-- The seven scaffold files as `(path, contents)` pairs, parameterised by
the RPC URL (the only configuration value interpolated into any template). -/
def scaffoldFiles (url : String) : List (String × String) :=
  [("package.json", packageJsonStr),
   ("hardhat.config.js", hardhatConfigStr url),
   ("contracts/AIR.sol", airSolStr),
   ("scripts/deploy.js", deployJsStr),
   (".env.example", envExampleStr url),
   (".gitignore", gitignoreStr),
   ("monitor.js", monitorJsStr url)]

/-- Sample world in which nothing exists yet and every external operation
succeeds. -/
def wOk : World :=
  ⟨false, false, false, false, false, true, true, true, true, true, true, true, true,
   "0xaaaaaaaaaaaaaaaaaaaaaaaaaaaaaaaaaaaaaaaa", "1.0",
   "0xbbbbbbbbbbbbbbbbbbbbbbbbbbbbbbbbbbbbbbbb", "0xhash"⟩

/-- Sample world in which the quick-mode balance query fails. -/
def wBalanceFail : World :=
  ⟨false, false, false, false, false, true, true, true, true, true, false, true, true,
   "0xaaaaaaaaaaaaaaaaaaaaaaaaaaaaaaaaaaaaaaaa", "1.0",
   "0xbbbbbbbbbbbbbbbbbbbbbbbbbbbbbbbbbbbbbbbb", "0xhash"⟩

/-- Sample world in which `npx hardhat compile` exits non-zero. -/
def wCompileFail : World :=
  ⟨false, false, false, false, false, true, false, true, true, true, true, true, true,
   "0xaaaaaaaaaaaaaaaaaaaaaaaaaaaaaaaaaaaaaaaa", "1.0",
   "0xbbbbbbbbbbbbbbbbbbbbbbbbbbbbbbbbbbbbbbbb", "0xhash"⟩

/-- Sample SDK-returned contract address. -/
def sampleAddr : String := "0x5FbDB2315678afecb367f032d93F642f64180aa3"

/-- Sample SDK-returned deployer address. -/
def sampleDeployer : String := "0xf39Fd6e51aad88F6F4ce6aB8827279cffFb92266"

/-- Sample environment: quick mode with no credential in the environment. -/
def envQuickNoKey : Env := ⟨none, none, ["--quick"]⟩

/-- Sample environment: quick mode with a credential set. -/
def envQuickKey : Env := ⟨some ("0xabc123"), none, ["--quick"]⟩

/-- Sample environment: scaffold mode with a credential set. -/
def envScaffoldKey : Env := ⟨some ("0xabc123"), none, []⟩

/-- Sample environment: scaffold mode with no credential. -/
def envScaffoldNoKey : Env := ⟨none, none, []⟩

end AirDeploy

namespace AirDeploy

/-! ## Basic lemmas about sequencing and the individual steps -/

theorem pseq_of_ok {r : Proc} (s : Proc) (h : r.2 = StepResult.ok) :
    pseq r s = (r.1 ++ s.1, s.2) := by
  rcases r with ⟨es, st⟩
  cases st <;> simp_all [pseq]

theorem pseq_of_not_ok {r : Proc} (s : Proc) (h : r.2 ≠ StepResult.ok) :
    pseq r s = r := by
  rcases r with ⟨es, st⟩
  cases st <;> simp_all [pseq]

theorem mem_of_mem_pseq {e : Event} {r s : Proc} (h : e ∈ (pseq r s).1) :
    e ∈ r.1 ∨ e ∈ s.1 := by
  rcases r with ⟨es, st⟩
  cases st <;> simp_all [pseq]

theorem mem_of_mem_pseqAll {e : Event} :
    ∀ ps : List Proc, e ∈ (pseqAll ps).1 → ∃ p ∈ ps, e ∈ p.1 := by
  intro ps
  induction ps with
  | nil => simp [pseqAll]
  | cons head tail ih =>
      intro h
      unfold pseqAll at h
      simp only [List.foldr_cons] at h
      rcases mem_of_mem_pseq h with h1 | h2
      · exact ⟨head, by simp, h1⟩
      · obtain ⟨p, hp, he⟩ := ih h2
        exact ⟨p, by simp [hp], he⟩

theorem digitChar_isDigit (n : Nat) : (digitChar n).isDigit = true := by
  have h : n % 10 < 10 := Nat.mod_lt _ (by norm_num)
  unfold digitChar
  generalize hk : n % 10 = k at h ⊢
  interval_cases k <;> decide

theorem isISO8601_toISOString (t : Nat) : isISO8601 (toISOString t) = true := by
  unfold isISO8601 toISOString pad4 pad3 pad2
  simp [String.data_append, digitChar_isDigit]

theorem createProjectStructure_eq (w : World) :
    CompleteDeployer.createProjectStructure w = (cpsTrace w, StepResult.ok) := by
  unfold CompleteDeployer.createProjectStructure cpsTrace mkdirIfMissing mkdirSync
  split_ifs <;> simp_all [pseq]

theorem exec_not_mem_cpsTrace (w : World) (c : String) : Event.exec c ∉ cpsTrace w := by
  unfold cpsTrace
  split_ifs <;> simp

theorem writeFile_not_mem_cpsTrace (w : World) (p c : String) :
    Event.writeFile p c ∉ cpsTrace w := by
  unfold cpsTrace
  split_ifs <;> simp

theorem banner_not_mem_cpsTrace (w : World) :
    Event.log ("\n🎉 DEPLOYMENT COMPLETE! Your AIR token is live on Base Sepolia.")
      ∉ cpsTrace w := by
  unfold cpsTrace
  split_ifs <;> simp

theorem chdir_mem_cpsTrace (w : World) : Event.chdir projectName ∈ cpsTrace w := by
  unfold cpsTrace
  split_ifs <;> simp

theorem mkdir_project_mem_cpsTrace (w : World) (h : w.exProject = false) :
    Event.mkdir projectName ∈ cpsTrace w := by
  unfold cpsTrace
  simp [h]

theorem installDependencies_eq (w : World) :
    CompleteDeployer.installDependencies w =
      ([Event.log ("📦 Installing dependencies..."),
        Event.writeFile ("package.json") packageJsonStr,
        Event.exec ("npm install")],
       if w.okNpmInstall then StepResult.ok
       else StepResult.err ("Command failed: npm install")) := by
  cases h : w.okNpmInstall <;>
    simp [CompleteDeployer.installDependencies, pseq, writeFileSync, runCommand, h]

theorem createConfigFiles_eq (env : Env) :
    CompleteDeployer.createConfigFiles env =
      ([Event.log ("⚙️  Creating configuration files..."),
        Event.writeFile ("hardhat.config.js") (hardhatConfigStr env.rpcUrl),
        Event.writeFile ("contracts/AIR.sol") airSolStr,
        Event.writeFile ("scripts/deploy.js") deployJsStr,
        Event.writeFile (".env.example") (envExampleStr env.rpcUrl),
        Event.writeFile (".gitignore") gitignoreStr],
       StepResult.ok) := by
  simp [CompleteDeployer.createConfigFiles, pseq, writeFileSync]

theorem privateKey_eq_placeholder {env : Env} (h : truthy env.privateKeyVar = false) :
    env.privateKey = placeholderKey := by
  unfold Env.privateKey jsOr
  unfold truthy at h
  cases hv : env.privateKeyVar with
  | none => rfl
  | some s =>
      rw [hv] at h
      simp at h
      simp [h]

theorem deployContract_eq_noKey (env : Env) (w : World)
    (h : truthy env.privateKeyVar = false) :
    CompleteDeployer.deployContract env w =
      ([Event.log ("📤 Deploying AIR token...")],
       StepResult.err ("Please set PRIVATE_KEY environment variable or update the script")) := by
  simp [CompleteDeployer.deployContract, pseq, h, privateKey_eq_placeholder h]

theorem deployContract_eq_key (env : Env) (w : World)
    (h : truthy env.privateKeyVar = true) :
    CompleteDeployer.deployContract env w =
      (Event.log ("📤 Deploying AIR token...") :: Event.exec ("npx hardhat compile") ::
        (if w.okCompile then
          [Event.exec ("npx hardhat run scripts/deploy.js --network baseSepolia")]
         else []),
       if w.okCompile then
         (if w.okDeployRun then StepResult.ok
          else StepResult.err
            ("Command failed: npx hardhat run scripts/deploy.js --network baseSepolia"))
       else StepResult.err ("Command failed: npx hardhat compile")) := by
  cases hc : w.okCompile <;> cases hd : w.okDeployRun <;>
    simp [CompleteDeployer.deployContract, pseq, runCommand, h, hc, hd]

theorem startMonitoring_eq (env : Env) (w : World) :
    CompleteDeployer.startMonitoring env w =
      ([Event.log ("📊 Starting deployment monitoring..."),
        Event.writeFile ("monitor.js") (monitorJsStr env.rpcUrl),
        Event.exec ("node monitor.js")],
       if w.okMonitor then StepResult.ok
       else StepResult.err ("Command failed: node monitor.js")) := by
  cases h : w.okMonitor <;>
    simp [CompleteDeployer.startMonitoring, pseq, writeFileSync, runCommand, h]

theorem scaffoldGenTrace_eq (env : Env) (w : World) :
    scaffoldGenTrace env w =
      [Event.log ("📦 Installing dependencies..."),
       Event.writeFile ("package.json") packageJsonStr,
       Event.exec ("npm install"),
       Event.log ("⚙️  Creating configuration files..."),
       Event.writeFile ("hardhat.config.js") (hardhatConfigStr env.rpcUrl),
       Event.writeFile ("contracts/AIR.sol") airSolStr,
       Event.writeFile ("scripts/deploy.js") deployJsStr,
       Event.writeFile (".env.example") (envExampleStr env.rpcUrl),
       Event.writeFile (".gitignore") gitignoreStr,
       Event.log ("📊 Starting deployment monitoring..."),
       Event.writeFile ("monitor.js") (monitorJsStr env.rpcUrl),
       Event.exec ("node monitor.js")] := by
  simp [scaffoldGenTrace, installDependencies_eq, createConfigFiles_eq, startMonitoring_eq]

theorem quickDeploy_eq_placeholder (env : Env) (w : World)
    (h : jsOr env.privateKeyVar placeholderKey = placeholderKey) :
    quickDeploy env w =
      ([Event.log ("⚡ QUICK DEPLOYMENT MODE (Direct Ethers.js)"),
        Event.log ("❌ Please set PRIVATE_KEY environment variable")],
       StepResult.exit 1) := by
  simp [quickDeploy, pseq, h]

theorem quickDeploy_eq_success (env : Env) (w : World)
    (h : jsOr env.privateKeyVar placeholderKey ≠ placeholderKey)
    (hw : w.walletOk = true) (hb : w.okGetBalance = true)
    (hd : w.okDeploy = true) (ht : w.okWait = true) :
    quickDeploy env w =
      ([Event.log ("⚡ QUICK DEPLOYMENT MODE (Direct Ethers.js)"),
        Event.log ("Deployer: " ++ w.walletAddress),
        Event.net ("getBalance"),
        Event.log ("Balance: " ++ w.balanceStr ++ " ETH"),
        Event.log ("🚀 Deploying..."),
        Event.deployTx quickBytecode,
        Event.net ("waitForDeployment"),
        Event.log ("✅ Contract deployed to: " ++ w.contractAddress),
        Event.log ("Transaction hash: " ++ w.txHash)],
       StepResult.ok) := by
  simp [quickDeploy, pseq, h, hw, hb, hd, ht]

theorem quickDeploy_no_file_events (env : Env) (w : World) :
    (∀ p c, Event.writeFile p c ∉ (quickDeploy env w).1) ∧
    (∀ d, Event.mkdir d ∉ (quickDeploy env w).1) ∧
    (∀ d, Event.chdir d ∉ (quickDeploy env w).1) := by
  unfold quickDeploy
  split_ifs <;> simp [pseq]

theorem quickDeploy_snd_not_placeholder (env : Env) (w : World)
    (h : jsOr env.privateKeyVar placeholderKey ≠ placeholderKey) :
    (quickDeploy env w).2 = StepResult.ok ∨
      ∃ m, (quickDeploy env w).2 = StepResult.err m := by
  unfold quickDeploy
  split_ifs <;> simp_all [pseq]

theorem run_spec (env : Env) (w : World) :
    (CompleteDeployer.run env w).2 =
      (if scaffoldOk env w then StepResult.ok else StepResult.exit 1) ∧
    (scaffoldOk env w = false →
      ∃ m, Event.logError m ∈ (CompleteDeployer.run env w).1) := by
  have hcps := createProjectStructure_eq w
  have hins := installDependencies_eq w
  have hcfg := createConfigFiles_eq env
  have hmon := startMonitoring_eq env w
  cases ht : truthy env.privateKeyVar with
  | false =>
      have hdep := deployContract_eq_noKey env w ht
      cases hn : w.okNpmInstall <;>
        simp [CompleteDeployer.run, hcps, hins, hcfg, hmon, hdep, pseq, scaffoldOk, ht, hn]
  | true =>
      have hdep := deployContract_eq_key env w ht
      cases hn : w.okNpmInstall <;> cases hc : w.okCompile <;> cases hd : w.okDeployRun <;>
        cases hm : w.okMonitor <;>
          simp [CompleteDeployer.run, hcps, hins, hcfg, hmon, hdep, pseq, scaffoldOk,
            ht, hn, hc, hd, hm]

theorem quickDeploy_err_of_failed (env : Env) (w : World)
    (h : jsOr env.privateKeyVar placeholderKey ≠ placeholderKey)
    (hf : quickFailed w = true) :
    ∃ m, (quickDeploy env w).2 = StepResult.err m := by
  unfold quickDeploy quickFailed at *
  split_ifs <;> simp_all [pseq]

/-! ## The claims -/

/-- C1: in any quick-mode run whose credential resolves to the placeholder
string (in particular whenever `PRIVATE_KEY` is unset), the process prints
the error line and exits with code 1, and the trace contains no network
operation at all: no balance query and no contract-creation submission. -/
theorem C1_quick_placeholder_exits_without_network (env : Env) (w : World)
    (hq : env.args.contains ("--quick") = true)
    (hk : jsOr env.privateKeyVar placeholderKey = placeholderKey) :
    (program env w).2 = 1 ∧
    Event.log ("❌ Please set PRIVATE_KEY environment variable") ∈ (program env w).1 ∧
    (∀ op, Event.net op ∉ (program env w).1) ∧
    (∀ b, Event.deployTx b ∉ (program env w).1) := by
  have hq' : ("--quick" ∈ env.args) := by simpa using hq
  have hqd := quickDeploy_eq_placeholder env w hk
  simp [program, mainFn, hq', hqd]

/-- C1 witness: `PRIVATE_KEY` unset, quick mode. -/
theorem C1_witness :
    (program envQuickNoKey wOk).2 = 1 ∧
    Event.log ("❌ Please set PRIVATE_KEY environment variable") ∈ (program envQuickNoKey wOk).1 ∧
    Event.net ("getBalance") ∉ (program envQuickNoKey wOk).1 ∧
    Event.deployTx quickBytecode ∉ (program envQuickNoKey wOk).1 := by
  obtain ⟨h1, h2, h3, h4⟩ :=
    C1_quick_placeholder_exits_without_network envQuickNoKey wOk (by decide) (by decide)
  exact ⟨h1, h2, h3 _, h4 _⟩

/-- C2 counterexample: a quick-mode run with a credential set but a
failing balance query is a failed run — the top-level
`main().catch(console.error)` handler logs the error — yet the process
exit code is 0, not non-zero as the claim requires. -/
theorem C2_counterexample :
    (program envQuickKey wBalanceFail).2 = 0 ∧
    Event.logError ("getBalance failed") ∈ (program envQuickKey wBalanceFail).1 := by
  constructor <;> decide

/-- C2 amended: in scaffold mode every failure is caught, logged, and
terminates the process with exit code 1, and the exit code is 0 exactly on
success; in quick mode a placeholder credential exits 1, but any other
quick-mode failure (wallet construction, balance query, submission,
confirmation wait) is only logged by the top-level handler and the process
exits with code 0. -/
theorem C2_amended_exit_codes (env : Env) (w : World) :
    (env.args.contains ("--quick") = false →
      (program env w).2 = (if scaffoldOk env w then 0 else 1) ∧
      (scaffoldOk env w = false → ∃ m, Event.logError m ∈ (program env w).1)) ∧
    (env.args.contains ("--quick") = true →
      jsOr env.privateKeyVar placeholderKey = placeholderKey →
      (program env w).2 = 1) ∧
    (env.args.contains ("--quick") = true →
      jsOr env.privateKeyVar placeholderKey ≠ placeholderKey →
      (program env w).2 = 0 ∧
      (quickFailed w = true → ∃ m, Event.logError m ∈ (program env w).1)) := by
  refine ⟨?_, ?_, ?_⟩
  · intro hq
    have hq' : ¬ ("--quick" ∈ env.args) := by simpa using hq
    have hs1 := (run_spec env w).1
    have hs2 := (run_spec env w).2
    rcases hr : CompleteDeployer.run env w with ⟨es, st⟩
    rw [hr] at hs1
    simp only at hs1
    constructor
    · cases hok : scaffoldOk env w with
      | true =>
          rw [hok] at hs1
          simp only [if_true] at hs1
          simp [program, mainFn, hq', hr, hs1, hok]
      | false =>
          rw [hok] at hs1
          simp only [Bool.false_eq_true, if_false] at hs1
          simp [program, mainFn, hq', hr, hs1, hok]
    · intro hok
      obtain ⟨m, hm⟩ := hs2 hok
      rw [hok] at hs1
      simp only [Bool.false_eq_true, if_false] at hs1
      rw [hr] at hm
      simp only at hm
      refine ⟨m, ?_⟩
      simp [program, mainFn, hq', hr, hs1]
      exact hm
  · intro hq hk
    have hq' : ("--quick" ∈ env.args) := by simpa using hq
    have hqd := quickDeploy_eq_placeholder env w hk
    simp [program, mainFn, hq', hqd]
  · intro hq hk
    have hq' : ("--quick" ∈ env.args) := by simpa using hq
    constructor
    · rcases quickDeploy_snd_not_placeholder env w hk with hok | ⟨m, hm⟩
      · rcases hqd : quickDeploy env w with ⟨es, st⟩
        rw [hqd] at hok
        simp only at hok
        simp [program, mainFn, hq', hqd, hok]
      · rcases hqd : quickDeploy env w with ⟨es, st⟩
        rw [hqd] at hm
        simp only at hm
        simp [program, mainFn, hq', hqd, hm]
    · intro hf
      obtain ⟨m, hm⟩ := quickDeploy_err_of_failed env w hk hf
      rcases hqd : quickDeploy env w with ⟨es, st⟩
      rw [hqd] at hm
      simp only at hm
      refine ⟨m, ?_⟩
      simp [program, mainFn, hq', hqd, hm]

/-- C2 witness: a scaffold run with no credential exits with code 1. -/
theorem C2_witness : (program envScaffoldNoKey wOk).2 = 1 := by
  have h := ((C2_amended_exit_codes envScaffoldNoKey wOk).1 (by decide)).1
  rw [h]
  decide

/-- C3: whenever one of the four scaffold-mode subprocess invocations is
executed and exits non-zero, the process exits with code 1 and no later
subprocess of the five-step sequence is executed (nor, where applicable,
is the monitoring script written or the completion banner printed). -/
theorem C3_subprocess_failure_stops_run (env : Env) (w : World)
    (hq : env.args.contains ("--quick") = false) :
    (w.okNpmInstall = false →
      (program env w).2 = 1 ∧
      Event.exec ("npx hardhat compile") ∉ (program env w).1 ∧
      Event.exec ("npx hardhat run scripts/deploy.js --network baseSepolia") ∉ (program env w).1 ∧
      Event.exec ("node monitor.js") ∉ (program env w).1 ∧
      (∀ c, Event.writeFile ("monitor.js") c ∉ (program env w).1)) ∧
    (w.okNpmInstall = true → truthy env.privateKeyVar = true → w.okCompile = false →
      (program env w).2 = 1 ∧
      Event.exec ("npx hardhat run scripts/deploy.js --network baseSepolia") ∉ (program env w).1 ∧
      Event.exec ("node monitor.js") ∉ (program env w).1 ∧
      (∀ c, Event.writeFile ("monitor.js") c ∉ (program env w).1)) ∧
    (w.okNpmInstall = true → truthy env.privateKeyVar = true → w.okCompile = true →
      w.okDeployRun = false →
      (program env w).2 = 1 ∧
      Event.exec ("node monitor.js") ∉ (program env w).1 ∧
      (∀ c, Event.writeFile ("monitor.js") c ∉ (program env w).1)) ∧
    (w.okNpmInstall = true → truthy env.privateKeyVar = true → w.okCompile = true →
      w.okDeployRun = true → w.okMonitor = false →
      (program env w).2 = 1 ∧
      Event.log ("\n🎉 DEPLOYMENT COMPLETE! Your AIR token is live on Base Sepolia.")
        ∉ (program env w).1) := by
  have hq' : ¬ ("--quick" ∈ env.args) := by simpa using hq
  have hcps := createProjectStructure_eq w
  have hins := installDependencies_eq w
  have hcfg := createConfigFiles_eq env
  have hmon := startMonitoring_eq env w
  refine ⟨?_, ?_, ?_, ?_⟩
  · intro hn
    simp [program, mainFn, hq', CompleteDeployer.run, hcps, hins, hcfg, hmon, pseq, hn,
      exec_not_mem_cpsTrace, writeFile_not_mem_cpsTrace]
  · intro hn ht hc
    have hdep := deployContract_eq_key env w ht
    simp [program, mainFn, hq', CompleteDeployer.run, hcps, hins, hcfg, hmon, hdep, pseq, hn, hc,
      exec_not_mem_cpsTrace, writeFile_not_mem_cpsTrace]
  · intro hn ht hc hd
    have hdep := deployContract_eq_key env w ht
    simp [program, mainFn, hq', CompleteDeployer.run, hcps, hins, hcfg, hmon, hdep, pseq,
      hn, hc, hd, exec_not_mem_cpsTrace, writeFile_not_mem_cpsTrace]
  · intro hn ht hc hd hm
    have hdep := deployContract_eq_key env w ht
    simp [program, mainFn, hq', CompleteDeployer.run, hcps, hins, hcfg, hmon, hdep, pseq,
      hn, hc, hd, hm, exec_not_mem_cpsTrace, writeFile_not_mem_cpsTrace,
      banner_not_mem_cpsTrace]

/-- C3 witness: a failing `npx hardhat compile` aborts the run with exit
code 1 and the monitoring step is never reached. -/
theorem C3_witness :
    (program envScaffoldKey wCompileFail).2 = 1 ∧
    Event.exec ("node monitor.js") ∉ (program envScaffoldKey wCompileFail).1 := by
  have h :=
    ((C3_subprocess_failure_stops_run envScaffoldKey wCompileFail (by decide)).2.1)
      (by decide) (by decide) (by decide)
  exact ⟨h.1, h.2.2.1⟩

/-- C4: monitoring errors are caught locally and only logged — the
generated monitor script ends normally (subprocess exit 0) in every case,
logging the `Monitoring error:` line when the deployment-info lookup or
the RPC name read fails; and a scaffold run whose four subprocesses
succeed exits with process code 0. -/
theorem C4_monitoring_errors_only_logged (env : Env) (w : World)
    (okInfo okName : Bool) (infoAddr nameV eInfo eName : String) :
    (monitorScriptRun okInfo infoAddr okName nameV eInfo eName).2 = StepResult.ok ∧
    (okInfo = false →
      Event.log ("Monitoring error: " ++ eInfo)
        ∈ (monitorScriptRun okInfo infoAddr okName nameV eInfo eName).1) ∧
    (okInfo = true → okName = false →
      Event.log ("Monitoring error: " ++ eName)
        ∈ (monitorScriptRun okInfo infoAddr okName nameV eInfo eName).1) ∧
    (env.args.contains ("--quick") = false → scaffoldOk env w = true →
      (program env w).2 = 0) := by
  refine ⟨?_, ?_, ?_, ?_⟩
  · cases okInfo <;> cases okName <;> simp [monitorScriptRun]
  · intro h
    simp [monitorScriptRun, h]
  · intro h1 h2
    simp [monitorScriptRun, h1, h2]
  · intro hq hok
    have hq' : ¬ ("--quick" ∈ env.args) := by simpa using hq
    have hs1 := (run_spec env w).1
    rcases hr : CompleteDeployer.run env w with ⟨es, st⟩
    rw [hr] at hs1
    rw [hok] at hs1
    simp only [if_true] at hs1
    simp [program, mainFn, hq', hr, hs1]

/-- C4 witness: a failing RPC name read inside the generated monitor
script is logged and the script still ends normally, while a scaffold run
whose subprocesses all succeed exits 0. -/
theorem C4_witness :
    (monitorScriptRun true ("0xabc") false ("AIR Token") ("einfo") ("read failed")).2 =
      StepResult.ok ∧
    Event.log ("Monitoring error: read failed")
      ∈ (monitorScriptRun true ("0xabc") false ("AIR Token") ("einfo") ("read failed")).1 ∧
    (program envScaffoldKey wOk).2 = 0 := by
  obtain ⟨h1, _, h3, h4⟩ :=
    C4_monitoring_errors_only_logged envScaffoldKey wOk true false ("0xabc") ("AIR Token")
      ("einfo") ("read failed")
  exact ⟨h1, h3 rfl rfl, h4 (by decide) (by decide)⟩

/-- C5: the seven generated files are byte-stable — two scaffold runs with
the same RPC URL configuration (the project name is a fixed constant)
write exactly the same `(path, contents)` list, and that list is precisely
the seven templates evaluated at the configured RPC URL. -/
theorem C5_scaffold_files_byte_stable (e1 e2 : Env) (w1 w2 : World)
    (h : e1.rpcUrlVar = e2.rpcUrlVar) :
    writesOf (scaffoldGenTrace e1 w1) = writesOf (scaffoldGenTrace e2 w2) ∧
    writesOf (scaffoldGenTrace e1 w1) = scaffoldFiles e1.rpcUrl := by
  have hr : Env.rpcUrl e1 = Env.rpcUrl e2 := by
    unfold Env.rpcUrl
    rw [h]
  constructor
  · rw [scaffoldGenTrace_eq, scaffoldGenTrace_eq, hr]
  · rw [scaffoldGenTrace_eq]
    simp [writesOf, scaffoldFiles]

/-- C5 witness: two runs in different worlds and env settings with the
same (defaulted) RPC URL produce the identical seven-file list. -/
theorem C5_witness :
    writesOf (scaffoldGenTrace envScaffoldKey wOk) =
      writesOf (scaffoldGenTrace envScaffoldNoKey wCompileFail) ∧
    writesOf (scaffoldGenTrace envScaffoldKey wOk) = scaffoldFiles envScaffoldKey.rpcUrl :=
  C5_scaffold_files_byte_stable envScaffoldKey envScaffoldNoKey wOk wCompileFail rfl

/-- C6: project-structure creation never raises, whatever already exists —
in particular a re-run on an existing directory tree succeeds — because
every `mkdirSync` is guarded by an existence check; by contrast the
unguarded primitive on an existing path throws. -/
theorem C6_createProjectStructure_never_errors (w : World) :
    (CompleteDeployer.createProjectStructure w).2 = StepResult.ok ∧
    (∀ p, (mkdirSync true p).2 ≠ StepResult.ok) := by
  constructor
  · rw [createProjectStructure_eq]
  · intro p
    simp [mkdirSync]

/-- C8: quick mode is file-system-pure — its trace never contains a file
write, a directory creation, or a directory change — and on the success
path it performs exactly the modelled sequence: the balance query, the
contract-creation submission carrying the hard-coded bytecode blob, the
confirmation wait, and the printout of the deployed address and the
transaction hash. -/
theorem C8_quick_mode_frame (env : Env) (w : World) :
    (∀ p c, Event.writeFile p c ∉ (quickDeploy env w).1) ∧
    (∀ d, Event.mkdir d ∉ (quickDeploy env w).1) ∧
    (∀ d, Event.chdir d ∉ (quickDeploy env w).1) ∧
    (jsOr env.privateKeyVar placeholderKey ≠ placeholderKey →
      w.walletOk = true → w.okGetBalance = true → w.okDeploy = true → w.okWait = true →
      quickDeploy env w =
        ([Event.log ("⚡ QUICK DEPLOYMENT MODE (Direct Ethers.js)"),
          Event.log ("Deployer: " ++ w.walletAddress),
          Event.net ("getBalance"),
          Event.log ("Balance: " ++ w.balanceStr ++ " ETH"),
          Event.log ("🚀 Deploying..."),
          Event.deployTx quickBytecode,
          Event.net ("waitForDeployment"),
          Event.log ("✅ Contract deployed to: " ++ w.contractAddress),
          Event.log ("Transaction hash: " ++ w.txHash)],
         StepResult.ok)) := by
  obtain ⟨h1, h2, h3⟩ := quickDeploy_no_file_events env w
  exact ⟨h1, h2, h3, fun hk hw hb hd ht => quickDeploy_eq_success env w hk hw hb hd ht⟩

/-- C8 witness: a concrete successful quick-mode run writes nothing and
follows the exact success trace. -/
theorem C8_witness :
    Event.writeFile ("package.json") packageJsonStr ∉ (quickDeploy envQuickKey wOk).1 ∧
    Event.mkdir projectName ∉ (quickDeploy envQuickKey wOk).1 ∧
    Event.chdir projectName ∉ (quickDeploy envQuickKey wOk).1 ∧
    quickDeploy envQuickKey wOk =
      ([Event.log ("⚡ QUICK DEPLOYMENT MODE (Direct Ethers.js)"),
        Event.log ("Deployer: " ++ wOk.walletAddress),
        Event.net ("getBalance"),
        Event.log ("Balance: " ++ wOk.balanceStr ++ " ETH"),
        Event.log ("🚀 Deploying..."),
        Event.deployTx quickBytecode,
        Event.net ("waitForDeployment"),
        Event.log ("✅ Contract deployed to: " ++ wOk.contractAddress),
        Event.log ("Transaction hash: " ++ wOk.txHash)],
       StepResult.ok) := by
  obtain ⟨h1, h2, h3, h4⟩ := C8_quick_mode_frame envQuickKey wOk
  exact ⟨h1 _ _, h2 _, h3 _, h4 (by decide) rfl rfl rfl rfl⟩

/-- C9: in scaffold mode with the credential missing, the credential check
happens only inside step 4: the project directory is created (when not
already present), the process changes into it, `npm install` runs, and all
six template files are written, before the credential error is logged and
the process exits 1; the compile, deployment, and monitoring subprocesses
never run. -/
theorem C9_scaffold_missing_key_checked_late (env : Env) (w : World)
    (hq : env.args.contains ("--quick") = false)
    (ht : truthy env.privateKeyVar = false)
    (hn : w.okNpmInstall = true) :
    (program env w).2 = 1 ∧
    (w.exProject = false → Event.mkdir projectName ∈ (program env w).1) ∧
    Event.chdir projectName ∈ (program env w).1 ∧
    Event.exec ("npm install") ∈ (program env w).1 ∧
    Event.writeFile ("package.json") packageJsonStr ∈ (program env w).1 ∧
    Event.writeFile ("hardhat.config.js") (hardhatConfigStr env.rpcUrl) ∈ (program env w).1 ∧
    Event.writeFile ("contracts/AIR.sol") airSolStr ∈ (program env w).1 ∧
    Event.writeFile ("scripts/deploy.js") deployJsStr ∈ (program env w).1 ∧
    Event.writeFile (".env.example") (envExampleStr env.rpcUrl) ∈ (program env w).1 ∧
    Event.writeFile (".gitignore") gitignoreStr ∈ (program env w).1 ∧
    Event.logError
        ("❌ Deployment failed: Please set PRIVATE_KEY environment variable or update the script")
      ∈ (program env w).1 ∧
    Event.exec ("npx hardhat compile") ∉ (program env w).1 ∧
    Event.exec ("npx hardhat run scripts/deploy.js --network baseSepolia") ∉ (program env w).1 ∧
    Event.exec ("node monitor.js") ∉ (program env w).1 := by
  have hq' : ¬ ("--quick" ∈ env.args) := by simpa using hq
  have hcps := createProjectStructure_eq w
  have hins := installDependencies_eq w
  have hcfg := createConfigFiles_eq env
  have hdep := deployContract_eq_noKey env w ht
  refine ⟨?_, ?_, ?_, ?_, ?_, ?_, ?_, ?_, ?_, ?_, ?_, ?_, ?_, ?_⟩
  case refine_2 =>
    intro hex
    simp [program, mainFn, hq', CompleteDeployer.run, hcps, hins, hcfg, hdep, pseq, hn,
      mkdir_project_mem_cpsTrace w hex]
  all_goals
    simp [program, mainFn, hq', CompleteDeployer.run, hcps, hins, hcfg, hdep, pseq, hn,
      exec_not_mem_cpsTrace, writeFile_not_mem_cpsTrace, chdir_mem_cpsTrace]

/-- C9 witness: concrete scaffold run with `PRIVATE_KEY` unset. -/
theorem C9_witness :
    (program envScaffoldNoKey wOk).2 = 1 ∧
    Event.mkdir projectName ∈ (program envScaffoldNoKey wOk).1 ∧
    Event.writeFile ("hardhat.config.js") (hardhatConfigStr envScaffoldNoKey.rpcUrl)
      ∈ (program envScaffoldNoKey wOk).1 ∧
    Event.logError
        ("❌ Deployment failed: Please set PRIVATE_KEY environment variable or update the script")
      ∈ (program envScaffoldNoKey wOk).1 ∧
    Event.exec ("npx hardhat compile") ∉ (program envScaffoldNoKey wOk).1 := by
  obtain ⟨h1, h2, _, _, _, h6, _, _, _, _, h11, h12, _, _⟩ :=
    C9_scaffold_missing_key_checked_late envScaffoldNoKey wOk (by decide) (by decide) rfl
  exact ⟨h1, h2 rfl, h6, h11, h12⟩

/-- C10: no generated file depends on the private key — replacing the
`PRIVATE_KEY` environment variable by anything leaves every written
`(path, contents)` pair unchanged; the `.env.example` template is the
literal placeholder line plus the RPC URL; and the generated hardhat
config embeds the literal JS expression reading `process.env.PRIVATE_KEY`
at toolchain runtime rather than any key value. -/
theorem C10_private_key_never_written (env : Env) (w : World) (pk : Option String) :
    writesOf (scaffoldGenTrace { env with privateKeyVar := pk } w) =
      writesOf (scaffoldGenTrace env w) ∧
    envExampleStr env.rpcUrl = "PRIVATE_KEY=your_private_key_here\nRPC_URL=" ++ env.rpcUrl ∧
    hardhatConfigStr env.rpcUrl =
      "\nrequire(\"@nomiclabs/hardhat-ethers\");\n\nmodule.exports = \x7b\n  solidity: \"0.8.20\",\n  networks: \x7b\n    baseSepolia: \x7b\n      url: \"" ++
        env.rpcUrl ++
        "\",\n      chainId: 84532,\n      accounts: process.env.PRIVATE_KEY ? [process.env.PRIVATE_KEY] : []\n    \x7d\n  \x7d\n\x7d;\n" := by
  rcases env with ⟨a, b, c⟩
  refine ⟨?_, rfl, rfl⟩
  rw [scaffoldGenTrace_eq, scaffoldGenTrace_eq]
  rfl

set_option maxRecDepth 4000

/-- C7: whenever the generated deploy script writes the deployment-result
record `deployment-info.json` — which never happens when the deployment
submission fails — the written bytes are exactly the serialized record
carrying the SDK-returned contract and deployer addresses (well-formed
hex address strings, per the SDK model), the fixed network label
`base-sepolia`, and a timestamp in ISO 8601 date-time shape. -/
theorem C7_deployment_info_record_well_formed
    (okSigners okBalance okDeploy okWait okName okSymbol okSupply : Bool)
    (deployerAddr addr nameV symV supV balV : String) (nowMs : Nat)
    (ha : isHexAddress addr = true) (hb : isHexAddress deployerAddr = true) :
    (∀ c, Event.writeFile ("deployment-info.json") c ∈
        (deployScriptRun okSigners okBalance okDeploy okWait okName okSymbol okSupply
          deployerAddr addr nameV symV supV balV nowMs).1 →
      c = serializeDeploymentInfo ⟨addr, deployerAddr, "base-sepolia", toISOString nowMs⟩ ∧
      isHexAddress
          (DeploymentInfo.address ⟨addr, deployerAddr, "base-sepolia", toISOString nowMs⟩) =
        true ∧
      isHexAddress
          (DeploymentInfo.deployer ⟨addr, deployerAddr, "base-sepolia", toISOString nowMs⟩) =
        true ∧
      DeploymentInfo.network ⟨addr, deployerAddr, "base-sepolia", toISOString nowMs⟩ =
        "base-sepolia" ∧
      isISO8601
          (DeploymentInfo.timestamp ⟨addr, deployerAddr, "base-sepolia", toISOString nowMs⟩) =
        true) ∧
    (okDeploy = false →
      ∀ c, Event.writeFile ("deployment-info.json") c ∉
        (deployScriptRun okSigners okBalance okDeploy okWait okName okSymbol okSupply
          deployerAddr addr nameV symV supV balV nowMs).1) := by
  constructor
  · intro c hc
    have hc2 : Event.writeFile ("deployment-info.json") c ∈
        (deployScriptBody okSigners okBalance okDeploy okWait okName okSymbol okSupply
          deployerAddr addr nameV symV supV balV nowMs).1 := by
      unfold deployScriptRun at hc
      rcases hbody : deployScriptBody okSigners okBalance okDeploy okWait okName okSymbol
          okSupply deployerAddr addr nameV symV supV balV nowMs with ⟨es, st⟩
      rw [hbody] at hc
      cases st <;> simp_all
    rw [deployScriptBody] at hc2
    obtain ⟨p, hp, hep⟩ := mem_of_mem_pseqAll _ hc2
    simp only [List.mem_cons, List.not_mem_nil, or_false] at hp
    have hceq : c = serializeDeploymentInfo ⟨addr, deployerAddr, "base-sepolia",
        toISOString nowMs⟩ := by
      rcases hp with rfl | rfl | rfl | rfl | rfl | rfl | rfl | rfl | rfl | rfl | rfl | rfl |
        rfl | rfl | rfl | rfl <;> simp_all [writeFileSync]
    exact ⟨hceq, ha, hb, rfl, isISO8601_toISOString nowMs⟩
  · intro hdf c
    cases hs : okSigners <;> cases hbal : okBalance <;>
      simp [deployScriptRun, deployScriptBody, pseqAll, pseq, writeFileSync,
        List.foldr_cons, List.foldr_nil, hs, hbal, hdf]

/-- C7 witness: a concrete successful run writes the record with a
well-formed address, deployer, fixed network label, and an ISO 8601
timestamp. -/
theorem C7_witness :
    isHexAddress (DeploymentInfo.address
        ⟨sampleAddr, sampleDeployer, "base-sepolia", toISOString 1700000000000⟩) = true ∧
    DeploymentInfo.network
        ⟨sampleAddr, sampleDeployer, "base-sepolia", toISOString 1700000000000⟩ =
      "base-sepolia" ∧
    isISO8601 (DeploymentInfo.timestamp
        ⟨sampleAddr, sampleDeployer, "base-sepolia", toISOString 1700000000000⟩) = true := by
  have h :=
    (C7_deployment_info_record_well_formed true true true true true true true
        sampleDeployer sampleAddr ("AIR Token") ("AIR") ("1000000.0") ("1.0") 1700000000000
        (by decide) (by decide)).1
      (serializeDeploymentInfo
        ⟨sampleAddr, sampleDeployer, "base-sepolia", toISOString 1700000000000⟩)
      (by decide)
  exact ⟨h.2.1, h.2.2.2.1, h.2.2.2.2⟩

end AirDeploy
